import Mathlib

/-!
Verification development for the nspanel-lui repository.

The development shallowly embeds the two source components the claims are
about:
  * `src/lib/nspanel-message-parser.ts` — the `NSPanelMessageParser` class
    (payload decoding), embedded in namespace `NSPanelMessageParser`;
  * the `NSPanelUpdater` class (firmware update orchestration), embedded in
    namespace `NSPanelUpdater`.

JavaScript platform primitives (`String.prototype.split`, `Number`,
`String.prototype.toLowerCase`, string `<`/`>` comparison, `JSON.parse`)
are modelled by executable Lean functions defined below; `JSON.parse` is a
parameter, since the claims quantify over its success or failure, never
over its concrete output on a given string.  Wall-clock values
(`new Date()`) are modelled only by their presence (`hasDate`).
-/

/-- Model of a parsed JSON value (result of a successful `JSON.parse`).
Numbers are modelled as integers; no settled claim depends on non-integer
JSON numbers. -/
inductive Json where
  | null : Json
  | bool (b : Bool) : Json
  | num (n : Int) : Json
  | str (s : String) : Json
  | arr (elems : List Json) : Json
  | obj (fields : List (String × Json)) : Json

/-- Model of a thrown JavaScript exception that escapes the function under
analysis.  `typeError` covers both a property write on `null` and a method
call on a non-string value. -/
inductive JsError where
  | typeError : JsError
deriving DecidableEq, Repr

/-- Model of `list.split(sep)` on a list of characters: split at every
occurrence of the separator; adjacent separators and boundary separators
produce empty fields, and the empty input produces one empty field,
exactly as JavaScript `String.prototype.split` with a one-character
separator does. -/
def splitCharList (sep : Char) : List Char → List (List Char)
  | [] => [[]]
  | c :: rest =>
    let r := splitCharList sep rest
    if c = sep then [] :: r
    else
      match r with
      | h :: t => (c :: h) :: t
      | [] => [[c]]

/-- Model of JavaScript `s.split(sep)` for a one-character separator. -/
def jsSplit (s : String) (sep : Char) : List String :=
  (splitCharList sep s.data).map (fun l => String.mk l)

/-- Digits-only string body to a natural number; `none` when the list is
empty or contains a non-digit. -/
def digitsToNat : List Char → Option Nat
  | [] => none
  | cs =>
    cs.foldl
      (fun acc c =>
        match acc with
        | none => none
        | some n => if c.isDigit then some (n * 10 + (c.toNat - 48)) else none)
      (some 0)

/-- Model of JavaScript `Number(s)` on the decimal strings this protocol
carries: surrounding spaces are trimmed, the empty string converts to `0`,
an optional leading minus sign is allowed, and any other non-digit makes
the result `NaN`, modelled as `none`.  (Exotic `Number` inputs — hex,
exponents, fractions — do not occur in the protocol and no settled claim
depends on them.) -/
def jsNumber (s : String) : Option Int :=
  let cs := ((s.data.dropWhile (· = ' ')).reverse.dropWhile (· = ' ')).reverse
  match cs with
  | [] => some 0
  | '-' :: rest => (digitsToNat rest).map (fun n => -(n : Int))
  | _ => (digitsToNat cs).map (fun n => (n : Int))

/-- Model of `Number` applied to a possibly-undefined string:
`Number(undefined)` is `NaN` (`none`). -/
def jsNumberOpt : Option String → Option Int
  | none => none
  | some s => jsNumber s

/-- ASCII lower-casing of one character, the case relevant to this
protocol's vocabulary. -/
def charToLower (c : Char) : Char :=
  if 'A' ≤ c ∧ c ≤ 'Z' then Char.ofNat (c.toNat + 32) else c

/-- Model of JavaScript `s.toLowerCase()` restricted to ASCII case
mapping; the action keywords and protocol tokens are all ASCII. -/
def jsToLowerCase (s : String) : String :=
  String.mk (s.data.map charToLower)

/-- Boolean lexicographic strict comparison of character lists by code
point, the order JavaScript uses for `<`/`>` on strings of BMP
characters. -/
def charListLt : List Char → List Char → Bool
  | [], [] => false
  | [], _ :: _ => true
  | _ :: _, [] => false
  | a :: as, b :: bs => if a < b then true else if b < a then false else charListLt as bs

/-- Model of JavaScript `a > b` on strings: plain lexicographic code-unit
comparison. -/
def jsStringGt (a b : String) : Bool :=
  charListLt b.data a.data

/-- Membership test for a key of a JSON object; model of the JavaScript
`key in obj` operator restricted to the values it does not throw on
(objects and arrays; a declared key of an array is never one of the
protocol's field names, so arrays test `false`). -/
def jsonObjHas (fields : List (String × Json)) (key : String) : Bool :=
  fields.any (fun p => p.1 == key)

/-- Model of the JavaScript `key in value` operator: on a primitive value
it throws a `TypeError`. -/
def jsIn (key : String) : Json → Except JsError Bool
  | Json.obj fields => Except.ok (jsonObjHas fields key)
  | Json.arr _ => Except.ok false
  | _ => Except.error JsError.typeError

/-- Field read `value[key]` for the cases reached in the source (the key
was first tested present on an object); absent keys and non-objects read
as `null`. -/
def getField (j : Json) (key : String) : Json :=
  match j with
  | Json.obj fields => (((fields.find? (fun p => p.1 == key)).map (fun p => p.2)).getD Json.null)
  | _ => Json.null

namespace NSPanelConstants

/-- Modelled from the spec: protocol event name constant `startup` from
`nspanel-constants` (module not under `src/`); §4.1.1 of the spec names
the literal. -/
def STR_LUI_EVENT_STARTUP : String := "startup"

/-- Modelled from the spec: protocol event name constant `sleepReached`
from `nspanel-constants` (module not under `src/`). -/
def STR_LUI_EVENT_SLEEPREACHED : String := "sleepReached"

/-- Modelled from the spec: protocol event name constant `buttonPress2`
from `nspanel-constants` (module not under `src/`). -/
def STR_LUI_EVENT_BUTTONPRESS2 : String := "buttonPress2"

/-- Modelled from the spec: protocol event name constant `pageOpenDetail`
from `nspanel-constants` (module not under `src/`). -/
def STR_LUI_EVENT_PAGEOPENDETAIL : String := "pageOpenDetail"

/-- Modelled from the spec: firmware kind tag for the tasmota firmware,
from `nspanel-constants` (module not under `src/`); the claims depend only
on the three tags being distinct. -/
def FIRMWARE_TASMOTA : String := "tasmota"

/-- Modelled from the spec: firmware kind tag for the berry driver, from
`nspanel-constants` (module not under `src/`). -/
def FIRMWARE_BERRYDRIVER : String := "berryDriver"

/-- Modelled from the spec: firmware kind tag for the HMI firmware, from
`nspanel-constants` (module not under `src/`). -/
def FIRMWARE_HMI : String := "hmi"

/-- Modelled from the spec: update-notification id for the tasmota
firmware (`nspanel-constants`, not under `src/`); claims depend only on
the three ids being distinct. -/
def STR_UPDATE_FIRMWARE_TASMOTA : String := "tasmota"

/-- Modelled from the spec: update-notification id for the berry driver
(`nspanel-constants`, not under `src/`). -/
def STR_UPDATE_FIRMWARE_BERRYDRIVER : String := "berryDriver"

/-- Modelled from the spec: update-notification id for the HMI firmware
(`nspanel-constants`, not under `src/`). -/
def STR_UPDATE_FIRMWARE_HMI : String := "hmi"

/-- Modelled from the spec: the berry-driver update command-echo key
(`nspanel-constants`, not under `src/`); the claims depend only on exact
string matching, never on the literal value. -/
def STR_BERRYDRIVER_CMD_UPDATEDRIVER : String := "UpdateDriverVersion"

/-- Modelled from the spec: the HMI flash command-echo key
(`nspanel-constants`, not under `src/`). -/
def STR_BERRYDRIVER_CMD_FLASHNEXTION : String := "FlashNextion"

/-- Modelled from the spec: the fixed success literal against which a
driver-update or HMI-flash command echo is compared by exact match
(`nspanel-constants`, not under `src/`). -/
def STR_LUI_CMD_SUCCESS : String := "Done"

end NSPanelConstants

namespace NSPanelMessageParser

/-- Carrier of the `data` field of an event: the raw payload string, a
parsed JSON structure, or the `\x7braw: parts.slice(2)\x7d` wrapper of the
comma-protocol default branch. -/
inductive EventDataVal where
  | str (s : String) : EventDataVal
  | json (j : Json) : EventDataVal
  | raw (parts : List String) : EventDataVal

/-- Embedding of the `hmiVersion` object emitted by the `startup` event. -/
structure HMIVersionData where
  version : Option String := none
  internalVersion : Option String := none
  model : Option String := none

/-- Embedding of the TypeScript `EventArgs` family (one structure with
optional fields, mirroring the structural TS types).  A JavaScript
`undefined` field is `none`; `hasDate` records whether the source attached
a wall-clock `new Date()` (the clock value itself is not modelled). -/
structure EventArgs where
  type : String := ""
  hasDate : Bool := false
  event : Option String := none
  event2 : Option String := none
  source : Option String := none
  entityId : Option String := none
  active : Option Bool := none
  value : Option Int := none
  data : Option EventDataVal := none
  rgb : Option (List Int) := none
  hsv : Option (List Int) := none
  hmiVersion : Option HMIVersionData := none
  status : Option String := none
  version : Option Json := none

/-- Out-of-scope collaborators used by `parseEvent`, passed as parameters:
`NSPanelColorUtils.hmiPosToColor` (the device-specific colour mapping; it
receives the two `Number`-converted coordinates, `none` standing for
`NaN`, and returns the RGB and HSV triples) and
`NSPanelMessageUtils.toBoolean` (coercion of an optional string to a
boolean). -/
structure Collaborators where
  hmiPosToColor : Option Int → Option Int → List Int × List Int
  toBoolean : Option String → Bool

/-- Modelled from the spec: `NSPanelUtils.stringIsNullOrEmpty` (helper
module not under `src/`): true on `null`/`undefined` and on the empty
string. -/
def stringIsNullOrEmpty : Option String → Bool
  | none => true
  | some s => s.data.isEmpty

/-- Embedding of `NSPanelMessageParser.parseEvent` (lines 267-381 of
`nspanel-message-parser.ts`).  `parts.get? i` models `parts[i]` with
`undefined` as `none`; the `switch` statements are written as equality
chains on the scrutinised string. -/
def parseEvent (C : Collaborators) (parts : List String) : EventArgs :=
  let p := fun i => parts.get? i
  let eventArgs : EventArgs :=
    { type := "event", hasDate := true, event := p 1, source := p 2 }
  if p 1 = some NSPanelConstants.STR_LUI_EVENT_STARTUP then
    { eventArgs with
        source := some "hmi",
        hmiVersion := some { version := none, internalVersion := p 2, model := p 3 } }
  else if p 1 = some NSPanelConstants.STR_LUI_EVENT_SLEEPREACHED then
    eventArgs
  else if p 1 = some NSPanelConstants.STR_LUI_EVENT_BUTTONPRESS2 then
    let e1 := { eventArgs with event2 := p 3 }
    let e2 :=
      if p 3 = some "button" then
        { e1 with source := p 3, event2 := p 2, entityId := p 2 }
      else if p 3 = some "OnOff" then
        { e1 with
            source := p 2, entityId := p 2,
            active := if C.toBoolean (p 4) then some true else none }
      else if p 3 = some "number-set" then
        let e := { e1 with entityId := p 2, source := p 2 }
        match jsNumberOpt (p 4) with
        | none => { e with data := (p 4).map EventDataVal.str }
        | some n => { e with value := some n }
      else if p 3 = some "colorWheel" then
        let e := { e1 with event2 := some "color" }
        let colorDataStr := p 4
        let colorDataArr :=
          if stringIsNullOrEmpty colorDataStr then []
          else jsSplit (colorDataStr.getD "") '|'
        if colorDataArr.length = 3 then
          let colorTuple :=
            C.hmiPosToColor (jsNumberOpt (colorDataArr.get? 0)) (jsNumberOpt (colorDataArr.get? 1))
          { e with rgb := some colorTuple.1, hsv := some colorTuple.2 }
        else e
      else if p 3 = some "positionSlider" then
        { e1 with event2 := some "position" }
      else if p 3 = some "tiltSlider" then
        { e1 with event2 := some "tilt" }
      else e1
    if parts.length = 5 then
      match jsNumberOpt (p 4) with
      | none => { e2 with data := (p 4).map EventDataVal.str }
      | some n => { e2 with value := some n }
    else e2
  else if p 1 = some NSPanelConstants.STR_LUI_EVENT_PAGEOPENDETAIL then
    { eventArgs with entityId := p 3 }
  else
    { eventArgs with data := some (EventDataVal.raw (parts.drop 2)) }

/-- Embedding of `NSPanelMessageParser.parseCustomMessage` (lines 45-60). -/
def parseCustomMessage (C : Collaborators) (parts : List String) : EventArgs :=
  if parts.get? 0 = some "event" then parseEvent C parts
  else { type := "event", event := some "", event2 := some "", source := some "" }

/-- Embedding of `NSPanelMessageParser.parseNluiDriverEvent` (lines
223-241); `NSPanelMessageUtils.hasProperty` is modelled by `jsonObjHas`
on objects (false on any non-object). -/
def parseNluiDriverEvent (input : Json) : Option EventArgs :=
  match input with
  | Json.obj fields =>
    if jsonObjHas fields "nlui_driver_version" then
      match getField input "nlui_driver_version" with
      | Json.null => none
      | v =>
        some { type := "fw",
               source := some NSPanelConstants.FIRMWARE_BERRYDRIVER,
               event := some "version",
               version := some v }
    else none
  | _ => none

/-- Embedding of `NSPanelMessageParser.parse` (lines 20-43).  `jsonParse`
models `JSON.parse`: `none` when it throws.  The embedding returns
`Except.error JsError.typeError` exactly where the source throws: in the
`catch` branch, `result` is still `null` when `result.data = payloadStr`
executes, which itself throws a `TypeError` that escapes `parse`.  The
`ok` value is an `Option EventArgs` because `parseNluiDriverEvent` can
return `null`. -/
def parse (C : Collaborators) (jsonParse : String → Option Json) (payloadStr : String) :
    Except JsError (Option EventArgs) :=
  match jsonParse payloadStr with
  | none => Except.error JsError.typeError
  | some temp =>
    match jsIn "CustomRecv" temp with
    | Except.error _ => Except.error JsError.typeError
    | Except.ok true =>
      match getField temp "CustomRecv" with
      | Json.str s => Except.ok (some (parseCustomMessage C (jsSplit s ',')))
      | _ => Except.error JsError.typeError
    | Except.ok false =>
      match jsIn "nlui_driver_version" temp with
      | Except.error _ => Except.error JsError.typeError
      | Except.ok true => Except.ok (parseNluiDriverEvent temp)
      | Except.ok false =>
        Except.ok (some { type := "unknown", source := some "", event := some "",
                          data := some (EventDataVal.json temp) })

/-- Embedding of `NSPanelMessageParser.actionStringToNumber` (lines
383-404): a `switch` on the lower-cased action string; no matching case
leaves the result `undefined`, modelled as `none`. -/
def actionStringToNumber (actionString : String) : Option Nat :=
  if jsToLowerCase actionString = "single" then some 1
  else if jsToLowerCase actionString = "double" then some 2
  else if jsToLowerCase actionString = "triple" then some 3
  else if jsToLowerCase actionString = "quad" then some 4
  else if jsToLowerCase actionString = "penta" then some 5
  else none

/-- Embedding of `NSPanelMessageParser.parseBerryDriverUpdateEvent`
(lines 196-221): selects the berry-driver update key, else the HMI flash
key; the echoed value is compared by strict equality against the fixed
success literal, yielding status `success` or `null` — never `failed`. -/
def parseBerryDriverUpdateEvent (input : Json) : Option EventArgs :=
  let mk := fun (key source : String) =>
    some { type := "fw",
           source := some source,
           event := some "update",
           status :=
             match getField input key with
             | Json.str s =>
               if s = NSPanelConstants.STR_LUI_CMD_SUCCESS then some "success" else none
             | _ => none
           : EventArgs }
  match input with
  | Json.obj fields =>
    if jsonObjHas fields NSPanelConstants.STR_BERRYDRIVER_CMD_UPDATEDRIVER then
      mk NSPanelConstants.STR_BERRYDRIVER_CMD_UPDATEDRIVER NSPanelConstants.FIRMWARE_BERRYDRIVER
    else if jsonObjHas fields NSPanelConstants.STR_BERRYDRIVER_CMD_FLASHNEXTION then
      mk NSPanelConstants.STR_BERRYDRIVER_CMD_FLASHNEXTION NSPanelConstants.FIRMWARE_HMI
    else none
  | _ => none

end NSPanelMessageParser

namespace NSPanelMessageParser

/-- Concrete collaborator instance used by closed counterexample and
witness theorems: a colour mapping returning fixed triples and a boolean
coercion returning `false`. -/
def sampleCollaborators : Collaborators :=
  { hmiPosToColor := fun _ _ => ([1, 2, 3], [4, 5, 6]), toBoolean := fun _ => false }

end NSPanelMessageParser


namespace NSPanelUpdater

/-- Embedding of the `FirmwareType` union: the three updatable firmware
kinds held on the update task stack. -/
inductive FirmwareType where
  | tasmota : FirmwareType
  | berryDriver : FirmwareType
  | hmi : FirmwareType
deriving DecidableEq, Repr

/-- Commands sent to the panel through the mqtt handler by the three
kind-specific update procedures: the HMI flash command, the composite
berry-driver backlog command, and the tasmota OTA-URL and upgrade
commands. -/
inductive PanelCmd where
  | flashNextionCmd : PanelCmd
  | backlogUpdateCmd : PanelCmd
  | otaUrlCmd : PanelCmd
  | upgradeCmd : PanelCmd
deriving DecidableEq, Repr

/-- Embedding of the `VersionAcquisitionStatus` flag bit
`TasmotaVersionCurrent = 1`. -/
def TasmotaVersionCurrent : Nat := 1

/-- Embedding of the flag bit `TasmotaVersionLatest = 2`. -/
def TasmotaVersionLatest : Nat := 2

/-- Embedding of the flag bit `BerryDriverVersionCurrent = 4`. -/
def BerryDriverVersionCurrent : Nat := 4

/-- Embedding of the flag bit `BerryDriverVersionLatest = 8`. -/
def BerryDriverVersionLatest : Nat := 8

/-- Embedding of the flag bit `HmiVersionCurrent = 16`. -/
def HmiVersionCurrent : Nat := 16

/-- Embedding of the flag bit `HmiVersionLatest = 32`. -/
def HmiVersionLatest : Nat := 32

/-- Embedding of `AllAcquired = ~(~0 << 6)`, which is `63` in 32-bit
JavaScript arithmetic: the disjunction of the six "known" flag bits. -/
def AllAcquired : Nat := 63

/-- Embedding of the flag bit `TasmotaUpdateAvailable = 64`. -/
def TasmotaUpdateAvailable : Nat := 64

/-- Embedding of the flag bit `BerryDriverUpdateAvailable = 128`. -/
def BerryDriverUpdateAvailable : Nat := 128

/-- Embedding of the flag bit `HmiUpdateAvailable = 256`. -/
def HmiUpdateAvailable : Nat := 256

/-- Mutable instance state of `NSPanelUpdater` touched by the claims: the
"update in progress" latch, the LIFO update-task stack (a JavaScript
array pushed and popped at its end), and the current-version records with
the acquisition flag set. -/
structure UpdaterState where
  updateInProgress : Bool
  updateTaskStack : List FirmwareType
  curTasmotaVersion : Option String := none
  curBerryDriverVersion : Option String := none
  versionAcquisitionStatus : Nat := 0
deriving DecidableEq, Repr

/-- JavaScript `array.push(x)`: appends at the end. -/
def stackPush (stack : List FirmwareType) (x : FirmwareType) : List FirmwareType :=
  stack ++ [x]

/-- JavaScript `array.pop()`: removes and returns the last element
(`undefined` on an empty array, which leaves the array empty). -/
def stackPop (stack : List FirmwareType) : Option FirmwareType × List FirmwareType :=
  (stack.getLast?, stack.dropLast)

/-- Embedding of `NSPanelUpdater._updateHmi`: when the latch is held the
task is pushed back and nothing is sent; otherwise the latch is set and
the flash-firmware command is sent. -/
def updateHmi (st : UpdaterState) : UpdaterState × List PanelCmd :=
  if st.updateInProgress then
    ({ st with updateTaskStack := stackPush st.updateTaskStack FirmwareType.hmi }, [])
  else
    ({ st with updateInProgress := true }, [PanelCmd.flashNextionCmd])

/-- Embedding of `NSPanelUpdater._updateBerryDriver`: re-push on busy,
else set the latch and send the composite backlog command. -/
def updateBerryDriver (st : UpdaterState) : UpdaterState × List PanelCmd :=
  if st.updateInProgress then
    ({ st with updateTaskStack := stackPush st.updateTaskStack FirmwareType.berryDriver }, [])
  else
    ({ st with updateInProgress := true }, [PanelCmd.backlogUpdateCmd])

/-- Embedding of `NSPanelUpdater._updateTasmotaFirmware`: re-push on
busy, else set the latch and send the OTA-URL command followed by the
upgrade-trigger command. -/
def updateTasmotaFirmware (st : UpdaterState) : UpdaterState × List PanelCmd :=
  if st.updateInProgress then
    ({ st with updateTaskStack := stackPush st.updateTaskStack FirmwareType.tasmota }, [])
  else
    ({ st with updateInProgress := true }, [PanelCmd.otaUrlCmd, PanelCmd.upgradeCmd])

/-- Embedding of `NSPanelUpdater.processUpdateTasks` (lines 615-630 of
the updater source): pop one task off the stack (the most recently
pushed), then dispatch the kind-specific update procedure; an empty stack
dispatches nothing. -/
def processUpdateTasks (st : UpdaterState) : UpdaterState × List PanelCmd :=
  let popped := stackPop st.updateTaskStack
  let st1 := { st with updateTaskStack := popped.2 }
  match popped.1 with
  | some FirmwareType.tasmota => updateTasmotaFirmware st1
  | some FirmwareType.berryDriver => updateBerryDriver st1
  | some FirmwareType.hmi => updateHmi st1
  | none => (st1, [])

/-- View of a decoded `FirmwareEventArgs` as consumed by the updater:
the event classifier, the firmware source tag, the update outcome and a
version payload. -/
structure FirmwareEventArgs where
  event : Option String := none
  source : String := ""
  status : Option String := none
  version : Option String := none
deriving DecidableEq, Repr

/-- Embedding of `NSPanelUpdater.setTasmotaVersion`: a non-null version
string is stored after stripping everything from the first `(` on
(when that `(` is not the first character), and the tasmota
current-version flag is set. -/
def setTasmotaVersion (st : UpdaterState) (tasmotaVersion : Option String) : UpdaterState :=
  match tasmotaVersion with
  | none => st
  | some s =>
    let idx : Int :=
      match s.data.findIdx? (· = '(') with
      | some i => (i : Int)
      | none => -1
    let tV := if idx > 0 then String.mk (s.data.take idx.toNat) else s
    { st with
        curTasmotaVersion := some tV,
        versionAcquisitionStatus := st.versionAcquisitionStatus ||| TasmotaVersionCurrent }

/-- Embedding of `NSPanelUpdater.setBerryDriverVersion`: a non-null
version string is stored and the berry-driver current-version flag is
set. -/
def setBerryDriverVersion (st : UpdaterState) (version : Option String) : UpdaterState :=
  match version with
  | none => st
  | some s =>
    { st with
        curBerryDriverVersion := some s,
        versionAcquisitionStatus := st.versionAcquisitionStatus ||| BerryDriverVersionCurrent }

/-- Embedding of `NSPanelUpdater.onFirmwareEvent` (lines 566-585 of the
updater source): a `version` event records the corresponding current
version; an `update` event with status `success` clears the in-progress
latch and processes the next queued task; every other event (including an
`update` with status `failed`) changes nothing and sends nothing. -/
def onFirmwareEvent (st : UpdaterState) (fwEvent : Option FirmwareEventArgs) :
    UpdaterState × List PanelCmd :=
  match fwEvent with
  | none => (st, [])
  | some ev =>
    if ev.event = some "version" then
      if ev.source = NSPanelConstants.STR_UPDATE_FIRMWARE_TASMOTA then
        (setTasmotaVersion st ev.version, [])
      else if ev.source = NSPanelConstants.STR_UPDATE_FIRMWARE_BERRYDRIVER then
        (setBerryDriverVersion st ev.version, [])
      else (st, [])
    else if ev.event = some "update" then
      if ev.status = some "success" then
        processUpdateTasks { st with updateInProgress := false }
      else (st, [])
    else (st, [])

end NSPanelUpdater

namespace NSPanelUpdater

/-- Embedding of the notification selection in
`NSPanelUpdater.checkForUpdates` (lines 514-564 of the updater source)
for the `autoUpdate === false` branch: three sequential `if` blocks test
the HMI, berry-driver and tasmota "-available" bits in that order, each
assigning the shared `notifyId` variable, so a later matching block
overwrites an earlier one. -/
def selectNotification (status : Nat) : Option String :=
  let n1 : Option String :=
    if status &&& HmiUpdateAvailable ≠ 0 then some NSPanelConstants.STR_UPDATE_FIRMWARE_HMI
    else none
  let n2 : Option String :=
    if status &&& BerryDriverUpdateAvailable ≠ 0 then
      some NSPanelConstants.STR_UPDATE_FIRMWARE_BERRYDRIVER
    else n1
  if status &&& TasmotaUpdateAvailable ≠ 0 then some NSPanelConstants.STR_UPDATE_FIRMWARE_TASMOTA
  else n2

/-- Embedding of the notification behaviour of
`NSPanelUpdater.checkForUpdates` after a successful acquisition, as the
list of notification ids presented: with automatic updates disabled, the
selected notification (if any) is shown once; with automatic updates
enabled no notification is shown (the update path carries a TODO in the
source and performs nothing). -/
def checkForUpdates (autoUpdate : Bool) (status : Nat) : List String :=
  if autoUpdate = false then
    match selectNotification status with
    | some notifyId => [notifyId]
    | none => []
  else []

/-- Version strings consulted by the acquisition coordinator when it
computes the "-available" flags: current and latest tasmota version,
current and latest berry-driver version, and current and latest HMI
internal version. -/
structure AcqVersions where
  curTasmota : String
  latTasmota : String
  curBerryDriver : String
  latBerryDriver : String
  curHmiInternal : String
  latHmiInternal : String
deriving DecidableEq, Repr

/-- Dotted version string to its numeric components (non-numeric
components read as `0`; the protocol's versions are numeric). -/
def parseDotted (s : String) : List Nat :=
  (jsSplit s '.').map (fun t => (digitsToNat t.data).getD 0)

/-- Componentwise numeric greater-than on dotted version components. -/
def listNatGt : List Nat → List Nat → Bool
  | [], [] => false
  | [], _ :: _ => false
  | _ :: _, [] => true
  | a :: as, b :: bs => if b < a then true else if a < b then false else listNatGt as bs

/-- Modelled from the spec: `semver.gt` of the external `semver` package
(not part of this repository): dotted-numeric semantic-version
ordering on the two version strings. -/
def semverGt (a b : String) : Bool :=
  listNatGt (parseDotted a) (parseDotted b)

/-- Core of the "-available" computation with the three comparison
outcomes abstracted: the three guarded `|=` assignments executed in
source order (tasmota, berry-driver, HMI). -/
def applyAvailableFlags (status : Nat) (b1 b2 b3 : Bool) : Nat :=
  let s1 := if b1 then status ||| TasmotaUpdateAvailable else status
  let s2 := if b2 then s1 ||| BerryDriverUpdateAvailable else s1
  if b3 then s2 ||| HmiUpdateAvailable else s2

/-- Embedding of the "-available" flag computation performed by
`NSPanelUpdater._acquireVersions` once all six "known" flags are set
(lines 649-671): `TasmotaUpdateAvailable` is guarded by `semver.gt` on
the version strings, `BerryDriverUpdateAvailable` by JavaScript string
`>` on the version strings, and `HmiUpdateAvailable` by JavaScript
string `>` on the `internalVersion` strings. -/
def computeAvailableFlags (status : Nat) (v : AcqVersions) : Nat :=
  applyAvailableFlags status
    (semverGt v.latTasmota v.curTasmota)
    (jsStringGt v.latBerryDriver v.curBerryDriver)
    (jsStringGt v.latHmiInternal v.curHmiInternal)

/-- Embedding of the `waitForDataAcquisition` poll loop inside
`NSPanelUpdater._acquireVersions` (lines 643-681).  Real time is
abstracted to poll indices: `status k` (resp. `vers k`) is the flag set
(resp. the version data) the coordinator observes at its `k`-th poll;
the second argument is the remaining value of the decremented counter
`i` (the source starts it at `10`).  A poll seeing all six "known" flags
resolves with the computed "-available" flags; when the counter reaches
zero the loop rejects with the partial flag set it last observed. -/
def waitForDataAcquisition (status : Nat → Nat) (vers : Nat → AcqVersions) (k : Nat) :
    Nat → Except Nat Nat
  | 0 => Except.error (status k)
  | i + 1 =>
    if status k &&& AllAcquired = AllAcquired then
      Except.ok (computeAvailableFlags (status k) (vers k))
    else if i = 0 then Except.error (status k)
    else waitForDataAcquisition status vers (k + 1) i

/-- Embedding of `NSPanelUpdater._acquireVersions`: the poll loop entered
with counter `10` at poll index `0`. -/
def acquireVersions (status : Nat → Nat) (vers : Nat → AcqVersions) : Except Nat Nat :=
  waitForDataAcquisition status vers 0 10

/-- Concrete version data used by closed witness theorems. -/
def sampleAcqVersions : AcqVersions :=
  { curTasmota := "13.1.0", latTasmota := "13.2.0",
    curBerryDriver := "4", latBerryDriver := "5",
    curHmiInternal := "53", latHmiInternal := "54" }

end NSPanelUpdater

open NSPanelMessageParser in
/-- C1: the claim says `parse` never throws on a non-JSON payload and
returns an `unknown` event wrapping the raw payload.  The code instead
throws: in the `catch` branch `result` is still `null`, so
`result.data = payloadStr` raises a `TypeError` that escapes `parse`.
This closed theorem evaluates the embedded code at the failing input
`"not json"` (with a `JSON.parse` model that fails on it) and shows the
escape of the `TypeError`, contradicting the claim. -/
theorem claim_C1_parse_throws_on_unparseable :
    parse sampleCollaborators (fun _ => none) "not json" = Except.error JsError.typeError := rfl

open NSPanelMessageParser in
/-- C2 counterexample: the claim says RGB/HSV are attached iff the
coordinate string has exactly two `|`-separated tokens, so that
`"120|80|0"` yields no RGB/HSV and `"120|80"` yields both.  The code
tests `colorDataArr.length === 3`: the three-token string gets RGB/HSV
attached and the two-token string gets none — the exact opposite. -/
theorem claim_C2_counterexample :
    (parseEvent sampleCollaborators
        ["event", "buttonPress2", "light.kitchen", "colorWheel", "120|80|0"]).rgb = some [1, 2, 3]
    ∧ (parseEvent sampleCollaborators
        ["event", "buttonPress2", "light.kitchen", "colorWheel", "120|80|0"]).hsv = some [4, 5, 6]
    ∧ (parseEvent sampleCollaborators
        ["event", "buttonPress2", "light.kitchen", "colorWheel", "120|80"]).rgb = none
    ∧ (parseEvent sampleCollaborators
        ["event", "buttonPress2", "light.kitchen", "colorWheel", "120|80"]).hsv = none := by
  decide

open NSPanelMessageParser in
/-- C2 (amended): for every comma-protocol input
`["event","buttonPress2", s, "colorWheel", c]` the decoded event carries
RGB and HSV fields if and only if `c` splits on `|` into exactly three
tokens, and when it does, both fields come from the colour-mapping
collaborator applied to the `Number`-converted first two tokens. -/
theorem claim_C2_colorWheel_rgb_hsv (C : Collaborators) (s c : String) :
    (((parseEvent C ["event", "buttonPress2", s, "colorWheel", c]).rgb.isSome = true
        ∧ (parseEvent C ["event", "buttonPress2", s, "colorWheel", c]).hsv.isSome = true)
      ↔ (jsSplit c '|').length = 3)
    ∧ ((jsSplit c '|').length = 3 →
        (parseEvent C ["event", "buttonPress2", s, "colorWheel", c]).rgb
            = some (C.hmiPosToColor (jsNumberOpt ((jsSplit c '|').get? 0))
                (jsNumberOpt ((jsSplit c '|').get? 1))).1
          ∧ (parseEvent C ["event", "buttonPress2", s, "colorWheel", c]).hsv
            = some (C.hmiPosToColor (jsNumberOpt ((jsSplit c '|').get? 0))
                (jsNumberOpt ((jsSplit c '|').get? 1))).2) := by
  unfold parseEvent
  simp only [List.get?, stringIsNullOrEmpty, jsNumberOpt,
    NSPanelConstants.STR_LUI_EVENT_STARTUP, NSPanelConstants.STR_LUI_EVENT_SLEEPREACHED,
    NSPanelConstants.STR_LUI_EVENT_BUTTONPRESS2, NSPanelConstants.STR_LUI_EVENT_PAGEOPENDETAIL]
  simp
  constructor
  · split
    all_goals by_cases hc : c.data = []
    all_goals simp [hc, jsSplit, splitCharList]
    all_goals split_ifs
    all_goals simp_all
  · intro h
    split
    all_goals by_cases hc : c.data = []
    all_goals simp_all [jsSplit, splitCharList]

open NSPanelMessageParser in
/-- C2 witness: instance of the amended theorem at the three-token
coordinate string `"120|80|0"`, with the token-count hypothesis
discharged concretely. -/
theorem claim_C2_witness :
    (jsSplit "120|80|0" '|').length = 3
    ∧ (parseEvent sampleCollaborators
        ["event", "buttonPress2", "light.kitchen", "colorWheel", "120|80|0"]).rgb
        = some [1, 2, 3] := by
  refine ⟨by decide, ?_⟩
  have h := (claim_C2_colorWheel_rgb_hsv sampleCollaborators "light.kitchen" "120|80|0").2
    (by decide)
  simpa using h.1

open NSPanelMessageParser in
/-- C4 counterexample: the claim says the decoded `button` event has
`source = parts[2]`.  The code executes `eventArgs.source = parts[3]`,
and in this branch `parts[3]` is the literal `"button"`, so with
`parts[2] = "light.kitchen"` the source is `"button"`, not
`"light.kitchen"`. -/
theorem claim_C4_counterexample :
    (parseEvent sampleCollaborators
        ["event", "buttonPress2", "light.kitchen", "button"]).source ≠ some "light.kitchen"
    ∧ (parseEvent sampleCollaborators
        ["event", "buttonPress2", "light.kitchen", "button"]).source = some "button"
    ∧ (parseEvent sampleCollaborators
        ["event", "buttonPress2", "light.kitchen", "button"]).event2 = some "light.kitchen"
    ∧ (parseEvent sampleCollaborators
        ["event", "buttonPress2", "light.kitchen", "button"]).entityId
        = some "light.kitchen" := by
  decide

open NSPanelMessageParser in
/-- C4 (amended): for every comma-protocol input of the form
`["event","buttonPress2", s, "button", ...]` the decoded event has
`source = parts[3]` (the literal `"button"`), `entityId = parts[2]` and
`event2 = parts[2]`. -/
theorem claim_C4_button_swap (C : Collaborators) (s : String) (rest : List String) :
    (parseEvent C ("event" :: "buttonPress2" :: s :: "button" :: rest)).source = some "button"
    ∧ (parseEvent C ("event" :: "buttonPress2" :: s :: "button" :: rest)).entityId = some s
    ∧ (parseEvent C ("event" :: "buttonPress2" :: s :: "button" :: rest)).event2 = some s := by
  unfold parseEvent
  simp only [List.get?, NSPanelConstants.STR_LUI_EVENT_STARTUP,
    NSPanelConstants.STR_LUI_EVENT_SLEEPREACHED, NSPanelConstants.STR_LUI_EVENT_BUTTONPRESS2,
    NSPanelConstants.STR_LUI_EVENT_PAGEOPENDETAIL]
  simp
  split
  all_goals try split
  all_goals simp

open NSPanelMessageParser in
/-- C9: `actionStringToNumber` maps, case-insensitively, `single`,
`double`, `triple`, `quad`, `penta` to `1..5`; every other string yields
no value (`none`), never zero and never an error. -/
theorem claim_C9_actionStringToNumber (s : String) :
    (jsToLowerCase s = "single" → actionStringToNumber s = some 1)
    ∧ (jsToLowerCase s = "double" → actionStringToNumber s = some 2)
    ∧ (jsToLowerCase s = "triple" → actionStringToNumber s = some 3)
    ∧ (jsToLowerCase s = "quad" → actionStringToNumber s = some 4)
    ∧ (jsToLowerCase s = "penta" → actionStringToNumber s = some 5)
    ∧ (jsToLowerCase s ∉ (["single", "double", "triple", "quad", "penta"] : List String) →
        actionStringToNumber s = none)
    ∧ actionStringToNumber s ≠ some 0 := by
  refine ⟨fun h => ?_, fun h => ?_, fun h => ?_, fun h => ?_, fun h => ?_, fun h => ?_, ?_⟩
  · simp [actionStringToNumber, h]
  · simp [actionStringToNumber, h]
  · simp [actionStringToNumber, h]
  · simp [actionStringToNumber, h]
  · simp [actionStringToNumber, h]
  · simp only [List.mem_cons, List.not_mem_nil, or_false, not_or] at h
    obtain ⟨h1, h2, h3, h4, h5⟩ := h
    simp [actionStringToNumber, h1, h2, h3, h4, h5]
  · unfold actionStringToNumber
    split_ifs
    all_goals simp

open NSPanelMessageParser in
/-- C9 witness: the theorem applied at the concrete inputs `"QUAD"`
(case-insensitive hit) and `"xyz"` (miss). -/
theorem claim_C9_witness :
    actionStringToNumber "QUAD" = some 4 ∧ actionStringToNumber "xyz" = none := by
  constructor
  · exact (claim_C9_actionStringToNumber "QUAD").2.2.2.1 (by decide)
  · exact (claim_C9_actionStringToNumber "xyz").2.2.2.2.2.1 (by decide)

open NSPanelMessageParser NSPanelConstants in
/-- C10: for every input object carrying the berry-driver-update or
HMI-flash command-echo key with a string value,
`parseBerryDriverUpdateEvent` returns a firmware `update` event whose
status is `success` exactly when the value equals the fixed success
literal and `null` (`none`) otherwise; no input whatsoever can produce
status `failed`. -/
theorem claim_C10_berryDriverUpdate_never_failed (fields : List (String × Json)) (s : String) :
    (jsonObjHas fields STR_BERRYDRIVER_CMD_UPDATEDRIVER = true →
      getField (Json.obj fields) STR_BERRYDRIVER_CMD_UPDATEDRIVER = Json.str s →
      parseBerryDriverUpdateEvent (Json.obj fields)
        = some { type := "fw", source := some FIRMWARE_BERRYDRIVER, event := some "update",
                 status := if s = STR_LUI_CMD_SUCCESS then some "success" else none })
    ∧ (jsonObjHas fields STR_BERRYDRIVER_CMD_UPDATEDRIVER = false →
       jsonObjHas fields STR_BERRYDRIVER_CMD_FLASHNEXTION = true →
       getField (Json.obj fields) STR_BERRYDRIVER_CMD_FLASHNEXTION = Json.str s →
       parseBerryDriverUpdateEvent (Json.obj fields)
         = some { type := "fw", source := some FIRMWARE_HMI, event := some "update",
                  status := if s = STR_LUI_CMD_SUCCESS then some "success" else none })
    ∧ ∀ (j : Json) (ev : EventArgs),
        parseBerryDriverUpdateEvent j = some ev → ev.status ≠ some "failed" := by
  refine ⟨fun h1 h2 => ?_, fun h1 h2 h3 => ?_, fun j ev h => ?_⟩
  · simp [parseBerryDriverUpdateEvent, h1, h2]
  · simp [parseBerryDriverUpdateEvent, h1, h2, h3]
  · cases j
    all_goals simp only [parseBerryDriverUpdateEvent] at h
    all_goals try exact absurd h (by simp)
    split_ifs at h
    all_goals simp only [Option.some.injEq] at h
    all_goals subst h
    all_goals simp only []
    all_goals split
    all_goals try split_ifs
    all_goals simp

open NSPanelMessageParser NSPanelConstants in
/-- C10 witness: the theorem applied to the concrete object carrying the
berry-driver update echo with the success literal as value. -/
theorem claim_C10_witness :
    parseBerryDriverUpdateEvent
        (Json.obj [(STR_BERRYDRIVER_CMD_UPDATEDRIVER, Json.str STR_LUI_CMD_SUCCESS)])
      = some { type := "fw", source := some FIRMWARE_BERRYDRIVER, event := some "update",
               status := some "success" } := by
  have h := (claim_C10_berryDriverUpdate_never_failed
      [(STR_BERRYDRIVER_CMD_UPDATEDRIVER, Json.str STR_LUI_CMD_SUCCESS)] STR_LUI_CMD_SUCCESS).1
    (by rfl) (by rfl)
  simpa using h
open NSPanelUpdater in
/-- C5: task processing is strictly LIFO with re-push-on-busy.
`processUpdateTasks` removes the most recently pushed task; when the
"update in progress" latch is set, that task is pushed back on top (the
state is unchanged) and no command is dispatched; when the latch is
clear, the latch is set, the task leaves the stack, and the
kind-specific update commands are dispatched. -/
theorem claim_C5_processUpdateTasks_lifo (st : UpdaterState) (s : List FirmwareType)
    (t : FirmwareType) (h : st.updateTaskStack = s ++ [t]) :
    (st.updateInProgress = true → processUpdateTasks st = (st, []))
    ∧ (st.updateInProgress = false →
        (processUpdateTasks st).1.updateInProgress = true
        ∧ (processUpdateTasks st).1.updateTaskStack = s
        ∧ (processUpdateTasks st).2 ≠ []
        ∧ (t = FirmwareType.tasmota →
            (processUpdateTasks st).2 = [PanelCmd.otaUrlCmd, PanelCmd.upgradeCmd])
        ∧ (t = FirmwareType.berryDriver → (processUpdateTasks st).2 = [PanelCmd.backlogUpdateCmd])
        ∧ (t = FirmwareType.hmi → (processUpdateTasks st).2 = [PanelCmd.flashNextionCmd])) := by
  obtain ⟨b, stack, v1, v2, va⟩ := st
  simp only at h
  subst h
  cases t
  all_goals cases b
  all_goals simp [processUpdateTasks, stackPop, stackPush, updateHmi, updateBerryDriver,
    updateTasmotaFirmware, List.getLast?_concat, List.dropLast_concat]

open NSPanelUpdater in
/-- C5 witness: with the latch held and a stack `[tasmota, berryDriver]`,
processing pops the berry-driver task (the most recent push), pushes it
back, and dispatches nothing — the state is unchanged. -/
theorem claim_C5_witness :
    processUpdateTasks
        { updateInProgress := true,
          updateTaskStack := [FirmwareType.tasmota, FirmwareType.berryDriver] }
      = ({ updateInProgress := true,
           updateTaskStack := [FirmwareType.tasmota, FirmwareType.berryDriver] }, []) :=
  (claim_C5_processUpdateTasks_lifo _ [FirmwareType.tasmota] FirmwareType.berryDriver rfl).1 rfl

open NSPanelUpdater in
/-- C6: an `update` firmware event clears the "update in progress" latch
and triggers processing of the next queued task exactly when its status
is `success`; with any other status — in particular `failed` — the state
(latch and task stack) is unchanged and nothing is dispatched. -/
theorem claim_C6_onFirmwareEvent_update (st : UpdaterState) (ev : FirmwareEventArgs)
    (h : ev.event = some "update") :
    (ev.status = some "success" →
      onFirmwareEvent st (some ev) = processUpdateTasks { st with updateInProgress := false })
    ∧ (ev.status ≠ some "success" → onFirmwareEvent st (some ev) = (st, []))
    ∧ (ev.status = some "failed" → onFirmwareEvent st (some ev) = (st, [])) := by
  refine ⟨fun hs => ?_, fun hs => ?_, fun hs => ?_⟩
  · simp [onFirmwareEvent, h, hs]
  · simp [onFirmwareEvent, h, hs]
  · simp [onFirmwareEvent, h, hs]

open NSPanelUpdater in
/-- C6 witness: a failed `update` event leaves the latch set and the
stack untouched. -/
theorem claim_C6_witness :
    onFirmwareEvent
        { updateInProgress := true, updateTaskStack := [FirmwareType.tasmota] }
        (some { event := some "update", status := some "failed" })
      = ({ updateInProgress := true, updateTaskStack := [FirmwareType.tasmota] }, []) :=
  (claim_C6_onFirmwareEvent_update _ _ rfl).2.2 rfl
namespace NSPanelUpdater

/-- When no poll in the counter's budget sees all six "known" flags, the
loop rejects with the flag set observed at its last poll. -/
theorem waitForDataAcquisition_reject (status : Nat → Nat) (vers : Nat → AcqVersions) :
    ∀ (i k : Nat), 0 < i →
      (∀ j, k ≤ j → j < k + i → status j &&& AllAcquired ≠ AllAcquired) →
      waitForDataAcquisition status vers k i = Except.error (status (k + i - 1)) := by
  intro i
  induction i with
  | zero => intro k h; omega
  | succ n ih =>
    intro k _ hall
    have h0 : status k &&& AllAcquired ≠ AllAcquired := hall k le_rfl (by omega)
    by_cases hn : n = 0
    · subst hn
      simp [waitForDataAcquisition, h0]
    · have hrec := ih (k + 1) (by omega) (fun j hj1 hj2 => hall j (by omega) (by omega))
      have heq : k + (n + 1) - 1 = k + 1 + n - 1 := by omega
      simp only [waitForDataAcquisition, if_neg h0, if_neg hn, heq]
      exact hrec

/-- The first poll that sees all six "known" flags (within the counter's
budget) resolves the loop with the "-available" flags computed from that
poll's data. -/
theorem waitForDataAcquisition_resolve (status : Nat → Nat) (vers : Nat → AcqVersions) :
    ∀ (i k k0 : Nat), k ≤ k0 → k0 < k + i →
      (∀ j, k ≤ j → j < k0 → status j &&& AllAcquired ≠ AllAcquired) →
      status k0 &&& AllAcquired = AllAcquired →
      waitForDataAcquisition status vers k i
        = Except.ok (computeAvailableFlags (status k0) (vers k0)) := by
  intro i
  induction i with
  | zero => intro k k0 h1 h2 _ _; omega
  | succ n ih =>
    intro k k0 hk hk2 hprev hall
    by_cases hek : k0 = k
    · subst hek
      simp [waitForDataAcquisition, hall]
    · have hklt : k < k0 := by omega
      have h0 : status k &&& AllAcquired ≠ AllAcquired := hprev k le_rfl hklt
      have hn : n ≠ 0 := by omega
      simp only [waitForDataAcquisition, if_neg h0, if_neg hn]
      exact ih (k + 1) k0 (by omega) (by omega) (fun j hj1 hj2 => hprev j (by omega) hj2) hall

/-- Bit-level behaviour of the guarded `|=` chain: starting from a flag
set holding only "known" bits (below 64), each "-available" bit ends up
set exactly when its guard held. -/
theorem applyAvailableFlags_bits :
    ∀ s, s < 64 → ∀ b1 b2 b3 : Bool,
      ((applyAvailableFlags s b1 b2 b3 &&& 64 ≠ 0) ↔ b1 = true)
      ∧ ((applyAvailableFlags s b1 b2 b3 &&& 128 ≠ 0) ↔ b2 = true)
      ∧ ((applyAvailableFlags s b1 b2 b3 &&& 256 ≠ 0) ↔ b3 = true) := by
  decide

end NSPanelUpdater

open NSPanelUpdater in
/-- C3 counterexample: the claim says that with automatic updates
disabled and both the HMI and tasmota "-available" flags set, the HMI
notification is shown.  The three sequential `if` blocks overwrite the
shared `notifyId`, so the tasmota block — the last one — wins, and the
tasmota notification is shown instead. -/
theorem claim_C3_counterexample :
    checkForUpdates false (AllAcquired ||| HmiUpdateAvailable ||| TasmotaUpdateAvailable)
      = [NSPanelConstants.STR_UPDATE_FIRMWARE_TASMOTA]
    ∧ NSPanelConstants.STR_UPDATE_FIRMWARE_TASMOTA
      ≠ NSPanelConstants.STR_UPDATE_FIRMWARE_HMI := by
  decide

open NSPanelUpdater in
/-- C3 (amended): with automatic updates disabled and at least one
"-available" flag set, exactly one notification is presented, and it is
for the highest-priority available update in the order tasmota first,
then berry-driver, then HMI (the last sequential `if` block to match
wins). -/
theorem claim_C3_notification_priority (status : Nat)
    (h : status &&& TasmotaUpdateAvailable ≠ 0 ∨ status &&& BerryDriverUpdateAvailable ≠ 0
      ∨ status &&& HmiUpdateAvailable ≠ 0) :
    checkForUpdates false status
      = [if status &&& TasmotaUpdateAvailable ≠ 0 then
           NSPanelConstants.STR_UPDATE_FIRMWARE_TASMOTA
         else if status &&& BerryDriverUpdateAvailable ≠ 0 then
           NSPanelConstants.STR_UPDATE_FIRMWARE_BERRYDRIVER
         else NSPanelConstants.STR_UPDATE_FIRMWARE_HMI] := by
  simp only [checkForUpdates, selectNotification]
  split_ifs with h1 h2 h3
  all_goals simp_all

open NSPanelUpdater in
/-- C3 witness: instance of the amended theorem with the berry-driver
and HMI flags set — the berry-driver notification is the one shown. -/
theorem claim_C3_witness :
    checkForUpdates false (AllAcquired ||| BerryDriverUpdateAvailable ||| HmiUpdateAvailable)
      = [NSPanelConstants.STR_UPDATE_FIRMWARE_BERRYDRIVER] := by
  have h := claim_C3_notification_priority
    (AllAcquired ||| BerryDriverUpdateAvailable ||| HmiUpdateAvailable)
    (Or.inr (Or.inl (by decide)))
  simpa using h

open NSPanelUpdater in
/-- C7: the acquisition loop polls its flag set once per interval (time
abstracted to poll indices): if no poll among the ten in the counter's
budget sees all six "known" flags, it rejects with the partial flag set
of the tenth poll; the first poll among those ten that sees all six
resolves immediately with the flags computed from that poll's data,
without consuming the remaining polls. -/
theorem claim_C7_acquire_polling (status : Nat → Nat) (vers : Nat → AcqVersions) :
    ((∀ k, k < 10 → status k &&& AllAcquired ≠ AllAcquired) →
      acquireVersions status vers = Except.error (status 9))
    ∧ (∀ k0, k0 < 10 →
        (∀ j, j < k0 → status j &&& AllAcquired ≠ AllAcquired) →
        status k0 &&& AllAcquired = AllAcquired →
        acquireVersions status vers
          = Except.ok (computeAvailableFlags (status k0) (vers k0))) := by
  constructor
  · intro h
    have hrej := waitForDataAcquisition_reject status vers 10 0 (by omega)
      (fun j _ h2 => h j (by omega))
    simpa [acquireVersions] using hrej
  · intro k0 hk0 hprev hall
    exact waitForDataAcquisition_resolve status vers 10 0 k0 (by omega) (by omega)
      (fun j _ h2 => hprev j h2) hall

open NSPanelUpdater in
/-- C7 witness: with a flag sequence that never completes, acquisition
rejects with the partial flag set; with one that completes at poll 3, it
resolves there with the computed flags. -/
theorem claim_C7_witness :
    acquireVersions (fun _ => 62) (fun _ => sampleAcqVersions) = Except.error 62
    ∧ acquireVersions (fun k => if k = 3 then 63 else 0) (fun _ => sampleAcqVersions)
        = Except.ok (computeAvailableFlags 63 sampleAcqVersions) := by
  constructor
  · have h := (claim_C7_acquire_polling (fun _ => 62) (fun _ => sampleAcqVersions)).1
      (by intro k _; decide)
    simpa using h
  · have h := (claim_C7_acquire_polling (fun k => if k = 3 then 63 else 0)
        (fun _ => sampleAcqVersions)).2 3 (by omega)
      (by intro j hj
          have hne : j ≠ 3 := by omega
          simp [hne, AllAcquired])
      (by simp [AllAcquired])
    simpa using h

open NSPanelUpdater in
/-- C8: once the six "known" flags are set (a flag set below 64), the
"-available" flags are computed with the asymmetric comparison policy:
the tasmota bit is set iff latest exceeds current under dotted-numeric
semantic-version ordering, while the berry-driver and HMI bits are set
iff latest exceeds current under plain lexicographic string ordering (on
the berry-driver version strings and the HMI internalVersion strings
respectively). -/
theorem claim_C8_comparison_policy (status : Nat) (h : status < 64) (v : AcqVersions) :
    ((computeAvailableFlags status v &&& TasmotaUpdateAvailable ≠ 0) ↔
      semverGt v.latTasmota v.curTasmota = true)
    ∧ ((computeAvailableFlags status v &&& BerryDriverUpdateAvailable ≠ 0) ↔
      jsStringGt v.latBerryDriver v.curBerryDriver = true)
    ∧ ((computeAvailableFlags status v &&& HmiUpdateAvailable ≠ 0) ↔
      jsStringGt v.latHmiInternal v.curHmiInternal = true) := by
  have hbits := applyAvailableFlags_bits status h
    (semverGt v.latTasmota v.curTasmota)
    (jsStringGt v.latBerryDriver v.curBerryDriver)
    (jsStringGt v.latHmiInternal v.curHmiInternal)
  simpa [computeAvailableFlags, TasmotaUpdateAvailable, BerryDriverUpdateAvailable,
    HmiUpdateAvailable] using hbits

open NSPanelUpdater in
/-- C8 witness: the asymmetry at work on version "10" versus "9": the
tasmota bit is set (numerically 10 > 9) while the berry-driver bit is
not (lexicographically "10" < "9"). -/
theorem claim_C8_witness :
    (computeAvailableFlags 63
        { curTasmota := "9.0.0", latTasmota := "10.0.0",
          curBerryDriver := "9", latBerryDriver := "10",
          curHmiInternal := "9", latHmiInternal := "10" } &&& TasmotaUpdateAvailable ≠ 0)
    ∧ ¬ (computeAvailableFlags 63
        { curTasmota := "9.0.0", latTasmota := "10.0.0",
          curBerryDriver := "9", latBerryDriver := "10",
          curHmiInternal := "9", latHmiInternal := "10" } &&& BerryDriverUpdateAvailable ≠ 0) := by
  constructor
  · exact (claim_C8_comparison_policy 63 (by decide) _).1.mpr (by decide)
  · intro hc
    have hb := (claim_C8_comparison_policy 63 (by decide) _).2.1.mp hc
    exact absurd hb (by decide)
